import Mathlib

/-!
Shallow embedding of the backend-resolution core of `python-sage-sms`
(`sage_sms/factory.py`, `sage_sms/services.py`, `sage_sms/helper/exceptions.py`,
`sage_sms/backends/base.py`).

Python dictionaries that serve as the class-level registry and cache of
`BackendModuleLoader` are modelled as functions `String → Option _`; the
class-level mutable state is threaded explicitly as a `LoaderState` value.
Python exceptions are modelled by the inductive `PyExc`; raising is modelled
by returning `Except.error`, and every stateful operation returns the state
it leaves behind alongside its result (a Python `raise` does not roll back
mutations, so the error case carries the state too).

The import machinery (`os.walk`, `importlib.import_module`, `getattr`) is an
external environment `PyEnv` supplied to the embedded functions; `os.walk`
on a nonexistent path yields no entries and raises nothing, which is why
`walk_files` is total.
-/

namespace SageSms

/-- Kinds of the exception taxonomy of `sage_sms/helper/exceptions.py`.
Every kind is a subclass of `SMSBackendError`. -/
inductive SMSErrorKind where
  | backendError
  | configurationError
  | connectionError
  | authenticationError
  | providerError
  | providerNotFoundError
  | providerExistsError
  | providerOperationError
  | messageError
  | messageSendError
  | messageFormatError
  | unexpectedError
  deriving DecidableEq, Repr

/-- Payload of an `SMSBackendError` instance: `detail`, `code`, `status_code`
as set by `SMSBackendError.__init__`. -/
structure SMSExcData where
  kind : SMSErrorKind
  detail : String
  code : String
  statusCode : Nat
  deriving DecidableEq, Repr

/-- A Python exception: either an instance of the `SMSBackendError` hierarchy
or any other exception (e.g. `AttributeError`, `ModuleNotFoundError`),
carried with its message. -/
inductive PyExc where
  | smsError (data : SMSExcData)
  | other (msg : String)
  deriving DecidableEq, Repr

/-- The `isinstance(e, SMSBackendError)` test performed by
`except SMSBackendError` in `SMSBackendFactory.get_backend`. -/
def isSMSBackendError : PyExc → Bool
  | .smsError _ => true
  | .other _ => false

/-- Constructor `SMSConfigurationError(detail)`: class defaults `status_code = 400`,
`default_code = "configuration_error"`. -/
def mkSMSConfigurationError (detail : String) : PyExc :=
  .smsError ⟨.configurationError, detail, "configuration_error", 400⟩

/-- Constructor `SMSProviderNotFoundError(detail)`: class defaults `status_code = 404`,
`default_code = "provider_not_found_error"`. -/
def mkSMSProviderNotFoundError (detail : String) : PyExc :=
  .smsError ⟨.providerNotFoundError, detail, "provider_not_found_error", 404⟩

/-- Constructor `SMSUnexpectedError(detail)`: class defaults `status_code = 500`,
`default_code = "unexpected_error"`. -/
def mkSMSUnexpectedError (detail : String) : PyExc :=
  .smsError ⟨.unexpectedError, detail, "unexpected_error", 500⟩

/-- Rendering `str(e)` as used by the f-strings in `factory.py`:
`SMSBackendError.__str__` renders detail, code and status code; for a
non-taxonomy exception we carry its message. -/
def pyStr : PyExc → String
  | .smsError d =>
      d.detail ++ " (Code: " ++ d.code ++ ", Status Code: " ++ toString d.statusCode ++ ")"
  | .other msg => msg

/-- A Python class object as discovery and loading see it: its `__name__`,
whether `issubclass(obj, ISmsProvider)` holds, whether it is the
`ISmsProvider` class itself, and an object identity. -/
structure PyClass where
  name : String
  subclassOfISmsProvider : Bool
  isISmsProvider : Bool
  id : Nat
  deriving DecidableEq, Repr

/-- A value found in a module `__dict__`: a class object or anything else
(functions, constants, imported modules), with an identity. -/
inductive PyObj where
  | cls (c : PyClass)
  | val (id : Nat)
  deriving DecidableEq, Repr

/-- The `ConsoleSMSBackend` class of `sage_sms/backends/base.py`. It extends
`BaseSMSBackend`, not `ISmsProvider`. -/
def consoleSMSBackend : PyClass :=
  { name := "ConsoleSMSBackend", subclassOfISmsProvider := false,
    isISmsProvider := false, id := 0 }

/-- A Python module: its `__dict__` as an ordered association list
(`module.__dict__.items()` enumerates in insertion order). -/
structure PyModule where
  dict : List (String × PyObj)
  deriving DecidableEq, Repr

/-- The import/filesystem environment used by `factory.py`:
`walk_files path` is the flattened list of file names produced by
`os.walk(path)` (empty when the path does not exist — `os.walk` swallows
errors when `onerror` is not given), and `import_module name` either returns
the module or raises. -/
structure PyEnv where
  walk_files : String → List String
  import_module : String → Except PyExc PyModule

/-- Python `getattr(module, attr)`: look up `attr` in the module `__dict__`,
raising `AttributeError` when absent. -/
def pyGetattr (m : PyModule) (attr : String) : Except PyExc PyObj :=
  match m.dict.find? (fun p => p.1 == attr) with
  | some p => .ok p.2
  | none => .error (.other ("AttributeError: module has no attribute " ++ attr))

/-- The class-level mutable state of `BackendModuleLoader`:
`_cached_backends` and `_provider_classname_map` (whose values are class
name strings, per `cls._provider_classname_map[module_name] = obj.__name__`).
Shared by the whole process. -/
structure LoaderState where
  _cached_backends : String → Option PyObj
  _provider_classname_map : String → Option String

/-- Pointwise insertion into a map modelled as a function. -/
def mapInsert {α : Type} (m : String → Option α) (k : String) (v : α) :
    String → Option α :=
  fun k' => if k' = k then some v else m k'

/-- The provider settings dictionary: only its `"NAME"` entry is read by the
core (`provider.get("NAME")`). -/
structure ProviderSettings where
  NAME : Option String
  deriving DecidableEq, Repr

/-- The settings dictionary passed to `SMSBackendFactory`: its `"debug"` and
`"provider"` entries, each possibly absent. -/
structure SMSSettings where
  debug : Option Bool
  provider : Option ProviderSettings

/-- Python truthiness of `provider.get("NAME")` as tested by
`if not provider_name`: `None` and the empty string are falsy. -/
def pyFalsyName : Option String → Bool
  | none => true
  | some s => s.isEmpty

/-- Python `s.endswith(pat)`, at the character-list level. -/
def strEndsWith (s pat : String) : Bool :=
  pat.data.isSuffixOf s.data

/-- Python `base_package.replace(".", "/")` from `discover_backends`: with a
one-character pattern this is a character map. -/
def pyDotToSlash (s : String) : String :=
  ⟨s.data.map (fun c => if c = '.' then '/' else c)⟩

/-- The fresh-load path of `BackendModuleLoader.load_backend_module`
(lines 89-94): import the module, `getattr` the recorded class name, store
the result in `_cached_backends` and return it. -/
def loadFresh (env : PyEnv) (base_package provider_name class_name : String)
    (st : LoaderState) : Except PyExc PyObj × LoaderState :=
  match env.import_module (base_package ++ "." ++ provider_name) with
  | .error e => (.error e, st)
  | .ok m =>
      match pyGetattr m class_name with
      | .error e => (.error e, st)
      | .ok provider_class =>
          (.ok provider_class,
            { st with
              _cached_backends :=
                mapInsert st._cached_backends provider_name provider_class })

/-- Model of `BackendModuleLoader.load_backend_module(provider, base_package)`.
`provider` is `settings.get("provider")`, hence possibly `None`, on which
`provider.get("NAME")` raises `AttributeError`. -/
def load_backend_module (env : PyEnv) (provider : Option ProviderSettings)
    (base_package : String) (st : LoaderState) :
    Except PyExc PyObj × LoaderState :=
  match provider with
  | none =>
      (.error (.other "AttributeError: 'NoneType' object has no attribute 'get'"), st)
  | some p =>
      match p.NAME with
      | none =>
          (.error (mkSMSConfigurationError "Provider key is missing in settings."), st)
      | some provider_name =>
          if provider_name.isEmpty then
            (.error (mkSMSConfigurationError "Provider key is missing in settings."), st)
          else
            match st._provider_classname_map provider_name with
            | none =>
                (.error (mkSMSProviderNotFoundError
                  ("Unsupported provider: " ++ provider_name)), st)
            | some class_name =>
                match st._cached_backends provider_name with
                | some cached => (.ok cached, st)
                | none => loadFresh env base_package provider_name class_name st

/-- The provider scan of `discover_backends` lines 46-56: the first entry of
`module.__dict__.items()` that is a class, a subclass of `ISmsProvider` and
not `ISmsProvider` itself (the loop `break`s after the first hit). -/
def firstProvider (dict : List (String × PyObj)) : Option PyClass :=
  match dict.find? (fun p =>
      match p.2 with
      | .cls c => c.subclassOfISmsProvider && !c.isISmsProvider
      | .val _ => false) with
  | some (_, .cls c) => some c
  | _ => none

/-- Effect of one file of the `os.walk` loop of `discover_backends` on the
`_provider_classname_map`, separated from the map it applies to: `.error e`
when `import_module` raises, `.ok (some (module_name, class_name))` when the
module contributes an entry, `.ok none` when the file is skipped or the
module holds no conforming class. -/
def fileUpdate (env : PyEnv) (base_package file : String) :
    Except PyExc (Option (String × String)) :=
  if strEndsWith file ".py" && file != "__init__.py" then
    let module_name := file.dropRight 3
    match env.import_module (base_package ++ "." ++ module_name) with
    | .error e => .error e
    | .ok m =>
        match firstProvider m.dict with
        | some c => .ok (some (module_name, c.name))
        | none => .ok none
  else
    .ok none

/-- The `os.walk` loop of `discover_backends` over the flattened file list,
threading the `_provider_classname_map`; an exception aborts the loop and
leaves the insertions already made in place. -/
def runFiles (env : PyEnv) (base_package : String) :
    List String → (String → Option String) →
    Except PyExc Unit × (String → Option String)
  | [], m => (.ok (), m)
  | file :: files, m =>
      match fileUpdate env base_package file with
      | .error e => (.error e, m)
      | .ok none => runFiles env base_package files m
      | .ok (some (k, v)) => runFiles env base_package files (mapInsert m k v)

/-- Replay a list of (key, class name) insertions into a map: the
cumulative effect of the successful iterations of the `os.walk` loop. -/
def applyUpds (us : List (String × String)) (m : String → Option String) :
    String → Option String :=
  us.foldl (fun m p => mapInsert m p.1 p.2) m

/-- The insertions the `os.walk` loop performs on a file list, together
with where it stops: the updates depend only on the environment, never on
the map they are applied to. -/
def collectUpds (env : PyEnv) (base_package : String) :
    List String → Except PyExc Unit × List (String × String)
  | [] => (.ok (), [])
  | file :: files =>
      match fileUpdate env base_package file with
      | .error e => (.error e, [])
      | .ok none => collectUpds env base_package files
      | .ok (some p) =>
          ((collectUpds env base_package files).1,
            p :: (collectUpds env base_package files).2)

/-- Model of `BackendModuleLoader.discover_backends(base_package)`: walk
`base_package.replace(".", "/")` and populate `_provider_classname_map`.
It never touches `_cached_backends`. -/
def discover_backends (env : PyEnv) (base_package : String)
    (m : String → Option String) :
    Except PyExc Unit × (String → Option String) :=
  runFiles env base_package (env.walk_files (pyDotToSlash base_package)) m

/-- The `SMSBackendFactory` instance attributes set by `__init__`. -/
structure SMSBackendFactory where
  settings : SMSSettings
  base_package : String

/-- Model of `SMSBackendFactory.__init__(settings, base_package)`: store the
attributes, run discovery, and wrap any exception it raises into
`SMSUnexpectedError` (the `except Exception` at lines 116-118). -/
def SMSBackendFactory.init (env : PyEnv) (settings : SMSSettings)
    (base_package : String) (st : LoaderState) :
    Except PyExc SMSBackendFactory × LoaderState :=
  match discover_backends env base_package st._provider_classname_map with
  | (.ok _, m) =>
      (.ok { settings := settings, base_package := base_package },
        { st with _provider_classname_map := m })
  | (.error e, m) =>
      (.error (mkSMSUnexpectedError
          ("Unexpected error during backend discovery: " ++ pyStr e)),
        { st with _provider_classname_map := m })

/-- Body of the `try` block of `SMSBackendFactory.get_backend` (lines
132-140): the debug check `self.settings.get("debug", False)`, then
resolution of `self.settings.get("provider")`. -/
def get_backend_body (env : PyEnv) (f : SMSBackendFactory) (st : LoaderState) :
    Except PyExc PyObj × LoaderState :=
  if f.settings.debug.getD false then
    (.ok (.cls consoleSMSBackend), st)
  else
    load_backend_module env f.settings.provider f.base_package st

/-- The exception handlers of `get_backend` (lines 141-146):
`except SMSBackendError as e: raise e` re-raises the taxonomy error object
unchanged; `except Exception as e` wraps anything else into
`SMSUnexpectedError`. -/
def handleBackendExc (r : Except PyExc PyObj × LoaderState) :
    Except PyExc PyObj × LoaderState :=
  match r with
  | (.ok x, st) => (.ok x, st)
  | (.error e, st) =>
      if isSMSBackendError e then
        (.error e, st)
      else
        (.error (mkSMSUnexpectedError
          ("Unexpected error while getting backend: " ++ pyStr e)), st)

/-- Model of `SMSBackendFactory.get_backend()`. -/
def get_backend (env : PyEnv) (f : SMSBackendFactory) (st : LoaderState) :
    Except PyExc PyObj × LoaderState :=
  handleBackendExc (get_backend_body env f st)

/-- One of the three send operations of `SmsService`, as an argument record:
used to state that a call is forwarded with identical arguments. -/
inductive SmsCall where
  | one (phone_number message : String) (linenumber : Option String)
  | bulk (phone_numbers : List String) (message : String) (linenumber : Option String)
  | verify (phone_number value : String)
  deriving DecidableEq, Repr

/-- A provider instance bound into `SmsService`: an object identity and the
behaviour of its three send methods (result or raised exception). -/
structure ProviderInstance where
  pid : Nat
  behavior : SmsCall → Except PyExc Unit

/-- Semantics of a Python method call `provider.send_*(args)`: the provider
produces its result and the call is recorded against the provider's
identity. -/
def invokeProvider (p : ProviderInstance) (c : SmsCall) :
    Except PyExc Unit × List (Nat × SmsCall) :=
  (p.behavior c, [(p.pid, c)])

/-- Class `SmsService` of `sage_sms/services.py`: holds the bound provider. -/
structure SmsService where
  _provider : ProviderInstance

/-- Model of `SmsService.__init__(provider)`. -/
def SmsService.init (provider : ProviderInstance) : SmsService :=
  { _provider := provider }

/-- Model of `SmsService.set_provider(provider)`: rebinds `self._provider`. -/
def SmsService.set_provider (_s : SmsService) (provider : ProviderInstance) :
    SmsService :=
  { _provider := provider }

/-- Model of `SmsService.send_one_message`: `self._provider.send_one_message(...)`. -/
def SmsService.send_one_message (s : SmsService) (phone_number message : String)
    (linenumber : Option String) : Except PyExc Unit × List (Nat × SmsCall) :=
  invokeProvider s._provider (.one phone_number message linenumber)

/-- Model of `SmsService.send_bulk_messages`: `self._provider.send_bulk_messages(...)`. -/
def SmsService.send_bulk_messages (s : SmsService) (phone_numbers : List String)
    (message : String) (linenumber : Option String) :
    Except PyExc Unit × List (Nat × SmsCall) :=
  invokeProvider s._provider (.bulk phone_numbers message linenumber)

/-- Model of `SmsService.send_verify_message`: `self._provider.send_verify_message(...)`. -/
def SmsService.send_verify_message (s : SmsService) (phone_number value : String) :
    Except PyExc Unit × List (Nat × SmsCall) :=
  invokeProvider s._provider (.verify phone_number value)

/-! Concrete fixtures used to instantiate the theorems below. -/

/-- An environment whose namespace walk finds nothing and whose imports all
fail, as `os.walk` behaves on a nonexistent path. -/
def envEmpty : PyEnv :=
  { walk_files := fun _ => [],
    import_module := fun _ => .error (.other "ModuleNotFoundError") }

/-- A provider class as `sage_sms.backend.smsir.SmsIr` would be seen. -/
def smsIrClass : PyClass :=
  { name := "SmsIr", subclassOfISmsProvider := true, isISmsProvider := false, id := 7 }

/-- A module exporting `smsIrClass`. -/
def smsIrModule : PyModule :=
  { dict := [("SmsIr", .cls smsIrClass)] }

/-- An environment with one provider file `sms_ir.py` in the walked package,
importable as `pkg.sms_ir`. -/
def envOneProvider : PyEnv :=
  { walk_files := fun _ => ["sms_ir.py"],
    import_module := fun s =>
      if s = "pkg.sms_ir" then .ok smsIrModule
      else .error (.other "ModuleNotFoundError") }

/-- An environment whose walk finds a file whose import raises. -/
def envBrokenModule : PyEnv :=
  { walk_files := fun _ => ["broken.py"],
    import_module := fun _ => .error (.other "ImportError: boom") }

/-- Loader state after discovery of `sms_ir` but before any resolution. -/
def stDiscovered : LoaderState :=
  { _cached_backends := fun _ => none,
    _provider_classname_map := fun k => if k = "sms_ir" then some "SmsIr" else none }

/-- Loader state after discovery and one cached resolution of `sms_ir`. -/
def stCached : LoaderState :=
  { _cached_backends :=
      mapInsert (fun _ => none) "sms_ir" (.cls smsIrClass),
    _provider_classname_map := fun k => if k = "sms_ir" then some "SmsIr" else none }

end SageSms

namespace SageSms

/-! Claim theorems. -/

/-- C2: for every settings mapping whose `debug` field is `true`,
`SMSBackendFactory.get_backend` returns the `ConsoleSMSBackend` fallback
without consulting the registry, without touching the loader state and
without raising, regardless of the `provider` field (malformed or absent). -/
theorem debug_true_returns_console (env : PyEnv) (settings : SMSSettings)
    (bp : String) (st : LoaderState) (h : settings.debug = some true) :
    get_backend env ⟨settings, bp⟩ st = (.ok (.cls consoleSMSBackend), st) := by
  simp [get_backend, get_backend_body, handleBackendExc, h]

/-- Witness for C2: malformed (absent) provider block and `debug = true`
still yields the fallback with no error. -/
theorem debug_true_returns_console_witness :
    get_backend envEmpty ⟨⟨some true, none⟩, "pkg"⟩ stDiscovered
      = (.ok (.cls consoleSMSBackend), stDiscovered) :=
  debug_true_returns_console envEmpty ⟨some true, none⟩ "pkg" stDiscovered rfl

/-- C1 counterexample: with no `debug` key at all and a well-formed
provider block, `get_backend` performs live resolution and returns the
provider class, not the `ConsoleSMSBackend` fallback —
`settings.get("debug", False)` collapses absent into `False`. -/
theorem absent_debug_counterexample :
    (get_backend envEmpty ⟨⟨none, some ⟨some "sms_ir"⟩⟩, "pkg"⟩ stCached).1
        = .ok (.cls smsIrClass)
      ∧ PyObj.cls smsIrClass ≠ PyObj.cls consoleSMSBackend := by
  constructor
  · rfl
  · decide

/-- C1 amended: when the `debug` key is absent, `get_backend` treats it
exactly as `false` — it proceeds to live provider resolution through
`BackendModuleLoader.load_backend_module` (with the factory's exception
handling) instead of returning the fallback backend. -/
theorem absent_debug_resolves (env : PyEnv) (settings : SMSSettings)
    (bp : String) (st : LoaderState) (h : settings.debug = none) :
    get_backend env ⟨settings, bp⟩ st
      = handleBackendExc (load_backend_module env settings.provider bp st) := by
  simp [get_backend, get_backend_body, h]

/-- Witness for the amended C1 at the spec's own test input
`{provider: {name: "sms_ir"}}` with no `debug` field. -/
theorem absent_debug_resolves_witness :
    get_backend envEmpty ⟨⟨none, some ⟨some "sms_ir"⟩⟩, "pkg"⟩ stCached
      = handleBackendExc
          (load_backend_module envEmpty (some ⟨some "sms_ir"⟩) "pkg" stCached) :=
  absent_debug_resolves envEmpty ⟨none, some ⟨some "sms_ir"⟩⟩ "pkg" stCached rfl

/-- C3: when the provider settings have an absent or empty `NAME`,
`load_backend_module` raises `SMSConfigurationError` leaving the loader
state untouched, and `get_backend` with `debug = false` re-raises exactly
that error, unwrapped. -/
theorem missing_name_configuration_error (env : PyEnv) (p : ProviderSettings)
    (bp : String) (st : LoaderState) (settings : SMSSettings)
    (hname : pyFalsyName p.NAME = true) (hdebug : settings.debug = some false)
    (hprov : settings.provider = some p) :
    load_backend_module env (some p) bp st
        = (.error (mkSMSConfigurationError "Provider key is missing in settings."), st)
      ∧ get_backend env ⟨settings, bp⟩ st
        = (.error (mkSMSConfigurationError "Provider key is missing in settings."), st) := by
  have hload : load_backend_module env (some p) bp st
      = (.error (mkSMSConfigurationError "Provider key is missing in settings."), st) := by
    cases hn : p.NAME with
    | none => simp [load_backend_module, hn]
    | some s =>
        rw [hn] at hname
        simp only [pyFalsyName] at hname
        simp [load_backend_module, hn, hname]
  refine ⟨hload, ?_⟩
  simp [get_backend, get_backend_body, handleBackendExc, hdebug, hprov, hload,
    isSMSBackendError, mkSMSConfigurationError]

/-- Witness for C3 at the spec's test input `{debug: false, provider: {}}`. -/
theorem missing_name_configuration_error_witness :
    load_backend_module envEmpty (some ⟨none⟩) "pkg" stDiscovered
        = (.error (mkSMSConfigurationError "Provider key is missing in settings."), stDiscovered)
      ∧ get_backend envEmpty ⟨⟨some false, some ⟨none⟩⟩, "pkg"⟩ stDiscovered
        = (.error (mkSMSConfigurationError "Provider key is missing in settings."), stDiscovered) :=
  missing_name_configuration_error envEmpty ⟨none⟩ "pkg" stDiscovered
    ⟨some false, some ⟨none⟩⟩ rfl rfl rfl

/-- C4: a non-empty provider `NAME` that is not a key of
`_provider_classname_map` makes `load_backend_module` raise
`SMSProviderNotFoundError`, and the failed call returns the registry map
and cache exactly as they were. -/
theorem unknown_provider_not_found (env : PyEnv) (bp : String)
    (st : LoaderState) (k : String) (hk : k.isEmpty = false)
    (hmap : st._provider_classname_map k = none) :
    load_backend_module env (some ⟨some k⟩) bp st
      = (.error (mkSMSProviderNotFoundError ("Unsupported provider: " ++ k)), st) := by
  simp [load_backend_module, hk, hmap]

/-- Witness for C4 at the spec's test input
`{debug: false, provider: {name: "not_registered"}}`. -/
theorem unknown_provider_not_found_witness :
    load_backend_module envEmpty (some ⟨some "not_registered"⟩) "pkg" stDiscovered
      = (.error (mkSMSProviderNotFoundError "Unsupported provider: not_registered"),
          stDiscovered) :=
  unknown_provider_not_found envEmpty "pkg" stDiscovered "not_registered" rfl rfl

/-- C9: when the body of `get_backend` raises, the factory boundary
re-raises any `SMSBackendError`-taxonomy exception unmodified and wraps
any other exception into `SMSUnexpectedError` carrying the original
cause's text, so callers can tell known configuration problems from
unforeseen plugin failures. -/
theorem backend_error_policy (env : PyEnv) (f : SMSBackendFactory)
    (st st' : LoaderState) (e : PyExc)
    (h : get_backend_body env f st = (.error e, st')) :
    get_backend env f st
      = ((if isSMSBackendError e then Except.error e
          else Except.error (mkSMSUnexpectedError
            ("Unexpected error while getting backend: " ++ pyStr e))), st') := by
  unfold get_backend handleBackendExc
  rw [h]
  by_cases he : isSMSBackendError e <;> simp [he]

/-- Witness for C9: a `None` provider block makes the body raise
`AttributeError` (outside the taxonomy), which `get_backend` wraps into
`SMSUnexpectedError`. -/
theorem backend_error_policy_witness :
    get_backend envEmpty ⟨⟨some false, none⟩, "pkg"⟩ stDiscovered
      = ((if isSMSBackendError
              (.other "AttributeError: 'NoneType' object has no attribute 'get'")
          then Except.error
              (.other "AttributeError: 'NoneType' object has no attribute 'get'")
          else Except.error (mkSMSUnexpectedError
            ("Unexpected error while getting backend: "
              ++ pyStr (.other "AttributeError: 'NoneType' object has no attribute 'get'")))),
          stDiscovered) :=
  backend_error_policy envEmpty ⟨⟨some false, none⟩, "pkg"⟩ stDiscovered stDiscovered
    (.other "AttributeError: 'NoneType' object has no attribute 'get'") rfl

/-- C8: each `SmsService` send operation makes exactly one call to the
currently-bound provider's method of the same name with identical
arguments and forwards the provider's result or raised error unmodified;
after `set_provider`, every send dispatches to the new provider and the
call trace contains only the new provider's identity. -/
theorem service_pure_forwarding (p q : ProviderInstance)
    (phone msg value : String) (line : Option String) (phones : List String) :
    (SmsService.init p).send_one_message phone msg line
        = (p.behavior (.one phone msg line), [(p.pid, .one phone msg line)])
      ∧ (SmsService.init p).send_bulk_messages phones msg line
        = (p.behavior (.bulk phones msg line), [(p.pid, .bulk phones msg line)])
      ∧ (SmsService.init p).send_verify_message phone value
        = (p.behavior (.verify phone value), [(p.pid, .verify phone value)])
      ∧ ((SmsService.init p).set_provider q).send_one_message phone msg line
        = (q.behavior (.one phone msg line), [(q.pid, .one phone msg line)])
      ∧ ((SmsService.init p).set_provider q).send_bulk_messages phones msg line
        = (q.behavior (.bulk phones msg line), [(q.pid, .bulk phones msg line)])
      ∧ ((SmsService.init p).set_provider q).send_verify_message phone value
        = (q.behavior (.verify phone value), [(q.pid, .verify phone value)]) :=
  ⟨rfl, rfl, rfl, rfl, rfl, rfl⟩

/-- C5: after one successful resolution of a provider key, every subsequent
`load_backend_module` call for that key returns the identical cached class
object and leaves the state unchanged, with no re-inspection: the result
does not depend on the import environment (the underlying namespace may be
mutated or removed) nor on the base package, so two successive resolutions
of the same key are constructor-identical. -/
theorem cached_resolution_stable (env env' : PyEnv) (bp bp' : String)
    (st st' : LoaderState) (k : String) (c : PyObj)
    (h : load_backend_module env (some ⟨some k⟩) bp st = (.ok c, st')) :
    load_backend_module env' (some ⟨some k⟩) bp' st' = (.ok c, st') := by
  by_cases hk : k.isEmpty = true
  · simp [load_backend_module, hk] at h
  · rw [Bool.not_eq_true] at hk
    cases hmap : st._provider_classname_map k with
    | none => simp [load_backend_module, hk, hmap] at h
    | some cn =>
        cases hcache : st._cached_backends k with
        | some cached =>
            simp [load_backend_module, hk, hmap, hcache] at h
            obtain ⟨h1, h2⟩ := h
            subst h2
            simp [load_backend_module, hk, hmap, hcache, h1]
        | none =>
            simp [load_backend_module, hk, hmap, hcache, loadFresh] at h
            cases himp : env.import_module (bp ++ "." ++ k) with
            | error e => simp [himp] at h
            | ok m =>
                cases hg : pyGetattr m cn with
                | error e => simp [himp, hg] at h
                | ok pc =>
                    simp [himp, hg] at h
                    obtain ⟨h1, h2⟩ := h
                    subst h2
                    simp [load_backend_module, hk, hmap, mapInsert, h1]

/-- Witness for C5: `sms_ir` is resolved once against a live namespace;
afterwards the namespace is emptied (`envEmpty`) and the base package
changed, yet the call still returns the originally cached class and the
state is unchanged. -/
theorem cached_resolution_stable_witness :
    load_backend_module envEmpty (some ⟨some "sms_ir"⟩) "mutated.pkg" stCached
      = (.ok (.cls smsIrClass), stCached) :=
  cached_resolution_stable envOneProvider envEmpty "pkg" "mutated.pkg"
    stDiscovered stCached "sms_ir" (.cls smsIrClass) (by rfl)

/-- C10: `_provider_classname_map` and `_cached_backends` are class-level
state keyed only by the bare provider name. First, a cached key resolves to
the cached class for every import environment and every `base_package`
(the result term does not mention them). Second, the state produced while
constructing one factory is the very state any other factory's
`get_backend` consults: a second factory with different settings and a
different base package resolves a key discovered and cached through the
first factory's state. -/
theorem class_level_shared_state :
    (∀ (env : PyEnv) (bp : String) (st : LoaderState) (k cn : String) (c : PyObj),
        st._provider_classname_map k = some cn →
        st._cached_backends k = some c →
        k.isEmpty = false →
        load_backend_module env (some ⟨some k⟩) bp st = (.ok c, st))
    ∧ (∀ (env : PyEnv) (s1 : SMSSettings) (bp1 : String) (st0 : LoaderState)
        (f1 : SMSBackendFactory) (st1 : LoaderState) (env2 : PyEnv)
        (s2 : SMSSettings) (bp2 : String) (k cn : String) (c : PyObj),
        SMSBackendFactory.init env s1 bp1 st0 = (.ok f1, st1) →
        st1._provider_classname_map k = some cn →
        st1._cached_backends k = some c →
        s2.debug.getD false = false →
        s2.provider = some ⟨some k⟩ →
        k.isEmpty = false →
        get_backend env2 ⟨s2, bp2⟩ st1 = (.ok c, st1)) := by
  constructor
  · intro env bp st k cn c hmap hcache hk
    simp [load_backend_module, hk, hmap, hcache]
  · intro env s1 bp1 st0 f1 st1 env2 s2 bp2 k cn c _ hmap hcache hdebug hprov hk
    simp [get_backend, get_backend_body, handleBackendExc, hdebug, hprov,
      load_backend_module, hk, hmap, hcache]

/-- Witness for C10: with the shared state holding a discovered and cached
`sms_ir`, a load through an arbitrary other base package returns the cached
class, and a second factory constructed over that same state (different
settings and base package) resolves it too. -/
theorem class_level_shared_state_witness :
    load_backend_module envEmpty (some ⟨some "sms_ir"⟩) "other.pkg" stCached
        = (.ok (.cls smsIrClass), stCached)
      ∧ get_backend envEmpty ⟨⟨some false, some ⟨some "sms_ir"⟩⟩, "third.pkg"⟩ stCached
        = (.ok (.cls smsIrClass), stCached) :=
  ⟨class_level_shared_state.1 envEmpty "other.pkg" stCached "sms_ir" "SmsIr"
      (.cls smsIrClass) rfl rfl rfl,
    class_level_shared_state.2 envEmpty ⟨some true, none⟩ "pkg2" stCached
      ⟨⟨some true, none⟩, "pkg2"⟩ stCached envEmpty
      ⟨some false, some ⟨some "sms_ir"⟩⟩ "third.pkg" "sms_ir" "SmsIr"
      (.cls smsIrClass) (by rfl) rfl rfl rfl rfl rfl⟩

/-- The `os.walk` loop equals replaying the environment-determined update
list onto the incoming map. -/
theorem runFiles_eq_applyUpds (env : PyEnv) (bp : String) :
    ∀ (fs : List String) (m : String → Option String),
      runFiles env bp fs m
        = ((collectUpds env bp fs).1, applyUpds (collectUpds env bp fs).2 m) := by
  intro fs
  induction fs with
  | nil => intro m; rfl
  | cons f fs ih =>
      intro m
      unfold runFiles collectUpds
      cases h : fileUpdate env bp f with
      | error e => simp [applyUpds]
      | ok o =>
          cases o with
          | none => simp [ih]
          | some p =>
              simp only []
              rw [ih]
              rfl

/-- At each key, replaying an update list either yields a value independent
of the base map (the key is written by some update) or passes the base map
through (the key is never written). -/
theorem applyUpds_cases (us : List (String × String)) (k : String) :
    (∀ m m' : String → Option String, applyUpds us m k = applyUpds us m' k)
      ∨ (∀ m : String → Option String, applyUpds us m k = m k) := by
  induction us with
  | nil => exact Or.inr fun m => rfl
  | cons a us ih =>
      cases ih with
      | inl h =>
          exact Or.inl fun m m' => h (mapInsert m a.1 a.2) (mapInsert m' a.1 a.2)
      | inr h =>
          by_cases hk : k = a.1
          · refine Or.inl fun m m' => ?_
            show applyUpds us (mapInsert m a.1 a.2) k
              = applyUpds us (mapInsert m' a.1 a.2) k
            rw [h, h]
            simp [mapInsert, hk]
          · refine Or.inr fun m => ?_
            show applyUpds us (mapInsert m a.1 a.2) k = m k
            rw [h]
            simp [mapInsert, hk]

/-- Replaying the same update list twice is pointwise the same as once. -/
theorem applyUpds_replay (us : List (String × String))
    (m : String → Option String) (k : String) :
    applyUpds us (applyUpds us m) k = applyUpds us m k := by
  cases applyUpds_cases us k with
  | inl h => exact h (applyUpds us m) m
  | inr h => rw [h, h]

/-- C6: running `discover_backends` a second time on the same unchanged
namespace succeeds again and yields a registry map pointwise equal (same
key set, same class-name values) to the map after the first run — the map
content does not depend on how many times discovery runs. -/
theorem discover_backends_idempotent (env : PyEnv) (bp : String)
    (m m1 : String → Option String) (u : Unit)
    (h : discover_backends env bp m = (.ok u, m1)) :
    (discover_backends env bp m1).1 = .ok u
      ∧ ∀ k, (discover_backends env bp m1).2 k = m1 k := by
  unfold discover_backends at h ⊢
  rw [runFiles_eq_applyUpds] at h
  rw [runFiles_eq_applyUpds]
  obtain ⟨h1, h2⟩ := Prod.mk.injEq .. ▸ h
  subst h2
  exact ⟨h1, fun k => applyUpds_replay _ m k⟩

/-- Witness for C6: discovery over a one-provider namespace, run twice. -/
theorem discover_backends_idempotent_witness :
    (discover_backends envOneProvider "pkg"
        (discover_backends envOneProvider "pkg" (fun _ => none)).2).1 = .ok ()
      ∧ ∀ k, (discover_backends envOneProvider "pkg"
          (discover_backends envOneProvider "pkg" (fun _ => none)).2).2 k
        = (discover_backends envOneProvider "pkg" (fun _ => none)).2 k :=
  discover_backends_idempotent envOneProvider "pkg" (fun _ => none)
    (discover_backends envOneProvider "pkg" (fun _ => none)).2 () (by rfl)

/-- C7 counterexample: on a namespace that does not exist, `os.walk` yields
nothing, so `discover_backends` returns successfully with the map
untouched — it does not fail with `SMSConfigurationError` (nor any other
error), contrary to the claim. -/
theorem discovery_missing_namespace_counterexample :
    (discover_backends envEmpty "no.such.pkg" (fun _ => none)).1 = .ok () :=
  rfl

/-- C7 amended: if the namespace does not exist or is not enumerable, the
walk produces no files and discovery returns successfully with the map
unchanged (no error is raised); any failure while inspecting a candidate
unit propagates out of `discover_backends` and `SMSBackendFactory.__init__`
wraps it — like every discovery-time exception — into `SMSUnexpectedError`
carrying the underlying cause's text, rather than silently corrupting the
registry. -/
theorem discovery_error_policy :
    (∀ (env : PyEnv) (bp : String) (m : String → Option String),
        env.walk_files (pyDotToSlash bp) = [] →
        discover_backends env bp m = (.ok (), m))
      ∧ (∀ (env : PyEnv) (settings : SMSSettings) (bp : String)
          (st : LoaderState) (e : PyExc) (m1 : String → Option String),
          discover_backends env bp st._provider_classname_map = (.error e, m1) →
          (SMSBackendFactory.init env settings bp st).1
            = .error (mkSMSUnexpectedError
                ("Unexpected error during backend discovery: " ++ pyStr e))) := by
  constructor
  · intro env bp m hwalk
    unfold discover_backends
    rw [hwalk]
    rfl
  · intro env settings bp st e m1 h
    unfold SMSBackendFactory.init
    rw [h]

/-- Witness for the amended C7: a nonexistent namespace discovers nothing
and raises nothing, and a namespace with a module whose import raises makes
the factory constructor fail with `SMSUnexpectedError`. -/
theorem discovery_error_policy_witness :
    discover_backends envEmpty "no.such.pkg" (fun _ => none)
        = (.ok (), fun _ => none)
      ∧ (SMSBackendFactory.init envBrokenModule ⟨some false, none⟩ "pkg"
          stDiscovered).1
        = .error (mkSMSUnexpectedError
            ("Unexpected error during backend discovery: "
              ++ pyStr (.other "ImportError: boom"))) :=
  ⟨discovery_error_policy.1 envEmpty "no.such.pkg" (fun _ => none) rfl,
    discovery_error_policy.2 envBrokenModule ⟨some false, none⟩ "pkg"
      stDiscovered (.other "ImportError: boom")
      stDiscovered._provider_classname_map (by rfl)⟩

end SageSms
